import Mathlib

/-!
# speech_to_text_windows_stub

Verification development for the Windows registration stub of the
speech-to-text plugin
(`packages/speech_to_text_windows_stub/windows/speech_to_text_windows.cpp`).

The C++ function is a `void` procedure that runs inside the host process. It is
embedded as a state-passing function: it takes the registrar handle and the
host state before the call, and returns either a fault or the `void` result
together with the host state after the call.
-/

namespace SpeechToTextWindowsStub

/-- Modelled from the spec: the type `FlutterDesktopPluginRegistrarRef` is
declared in `flutter_plugin_registrar.h`, which is not among the sources. The
spec calls it "one opaque pointer-sized handle", so a handle is the address it
holds; address `0` is the null handle. -/
structure FlutterDesktopPluginRegistrarRef where
  addr : Nat
deriving DecidableEq, Repr

/-- The null handle. -/
def nullRegistrar : FlutterDesktopPluginRegistrarRef := ⟨0⟩

/-- Ways in which a call running in the host process can fail to return
normally. -/
inductive Fault where
  | nullDereference
  | invalidHandle
  | exceptionThrown
deriving DecidableEq, Repr

/-- What a plugin's registration entry point can change in the host process:
the message channels, the method-call handlers and the callbacks it registered,
the threads it started and the allocations it kept. -/
structure HostState where
  channels : List String
  handlers : List (String × Nat)
  callbacks : List Nat
  threads : Nat
  allocations : List Nat
deriving DecidableEq, Repr

/-- Result of running a `void` procedure from a host state: a fault, or the
unit result with the state after the call. -/
abbrev Outcome := Except Fault (Unit × HostState)

/-- Embedding of
`void SpeechToTextWindowsRegisterWithRegistrar(FlutterDesktopPluginRegistrarRef registrar)`.
The body holds two comments and no statement, so control reaches the closing
brace at once: the call returns `()` and hands the state back. -/
def SpeechToTextWindowsRegisterWithRegistrar
    (registrar : FlutterDesktopPluginRegistrarRef) (s : HostState) : Outcome :=
  let _ := registrar
  Except.ok ((), s)

/-- The host calling the entry point once per handle of `hs`, in order, each
call starting from the state the previous one left; a fault stops the
sequence. This is the caller used to state repeated registration, not a
function of the repository. -/
def registerAll : List FlutterDesktopPluginRegistrarRef → HostState → Outcome
  | [], s => Except.ok ((), s)
  | h :: hs, s =>
    match SpeechToTextWindowsRegisterWithRegistrar h s with
    | Except.ok (_, t) => registerAll hs t
    | Except.error e => Except.error e

/-- Two calls in a row, the second from the state the first one left. -/
def registerTwice (h1 h2 : FlutterDesktopPluginRegistrarRef) (s : HostState) : Outcome :=
  match SpeechToTextWindowsRegisterWithRegistrar h1 s with
  | Except.ok (_, t) => SpeechToTextWindowsRegisterWithRegistrar h2 t
  | Except.error e => Except.error e

/-! ## Theorems -/

/-- C1: for every registrar handle and every host state, the call ends in
exactly the state it started from: every field (channels, handlers, callbacks,
threads, allocations) is the one before the call. -/
theorem register_state_unchanged (h : FlutterDesktopPluginRegistrarRef) (s : HostState) :
    ∃ t, SpeechToTextWindowsRegisterWithRegistrar h s = Except.ok ((), t) ∧ t = s ∧
      t.channels = s.channels ∧ t.handlers = s.handlers ∧ t.callbacks = s.callbacks ∧
      t.threads = s.threads ∧ t.allocations = s.allocations :=
  ⟨s, rfl, rfl, rfl, rfl, rfl, rfl, rfl⟩

/-- C2: for every registrar handle, valid or not, and every host state, the
call returns normally with the unit result; no fault is ever the outcome. -/
theorem register_never_fails (h : FlutterDesktopPluginRegistrarRef) (s : HostState) :
    (∃ r, SpeechToTextWindowsRegisterWithRegistrar h s = Except.ok r ∧ r.1 = ()) ∧
      ∀ e : Fault, SpeechToTextWindowsRegisterWithRegistrar h s ≠ Except.error e := by
  refine ⟨⟨((), s), rfl, rfl⟩, ?_⟩
  intro e hne
  simp [SpeechToTextWindowsRegisterWithRegistrar] at hne

/-- C3: the handle is never read: any two handles give the same outcome (result
and final state) from the same starting state, and in particular the null
handle behaves like any other handle. -/
theorem register_handle_independent (h1 h2 : FlutterDesktopPluginRegistrarRef) (s : HostState) :
    SpeechToTextWindowsRegisterWithRegistrar h1 s = SpeechToTextWindowsRegisterWithRegistrar h2 s ∧
      SpeechToTextWindowsRegisterWithRegistrar nullRegistrar s =
        SpeechToTextWindowsRegisterWithRegistrar h1 s :=
  ⟨rfl, rfl⟩

/-- C5: calling the entry point any number of times, with any sequence of
handles, from a state `s` ends in `s` with no fault, exactly like not calling
it at all; and two calls in a row give the outcome of a single call. -/
theorem register_repeated_identity (hs : List FlutterDesktopPluginRegistrarRef)
    (h1 h2 : FlutterDesktopPluginRegistrarRef) (s : HostState) :
    registerAll hs s = Except.ok ((), s) ∧
      registerAll hs s = registerAll [] s ∧
      registerTwice h1 h2 s = SpeechToTextWindowsRegisterWithRegistrar h1 s := by
  have key : ∀ (l : List FlutterDesktopPluginRegistrarRef) (u : HostState),
      registerAll l u = Except.ok ((), u) := by
    intro l
    induction l with
    | nil => intro u; rfl
    | cons a l ih =>
      intro u
      simp only [registerAll, SpeechToTextWindowsRegisterWithRegistrar]
      exact ih u
  exact ⟨key hs s, (key hs s).trans (key [] s).symm, rfl⟩

end SpeechToTextWindowsStub
